import Mathlib

/-!
Verification of the ComfyUI supervisor / RunPod serverless handler.

Shallow embedding of `app/handler.py` (HealthChecker, ComfyUIManager,
process_workflow / process_comfyui_workflow) and `app/rp_handler.py`
(validate_input, handler).  External effects (wall clock, OS process
liveness, HTTP responses from the supervised engine) are passed in as
explicit parameters; machine state is threaded explicitly.
-/

/-! ## Python `in` on strings (substring containment) -/

/-- Whether the first character list is a prefix of the second. -/
def charsPref : List Char → List Char → Bool
  | [], _ => true
  | _ :: _, [] => false
  | p :: ps, c :: cs => (p == c) && charsPref ps cs

/-- Whether the first character list occurs contiguously in the second. -/
def charsContains (pat : List Char) : List Char → Bool
  | [] => charsPref pat []
  | c :: cs => charsPref pat (c :: cs) || charsContains pat cs

/-- Python `pat in s` on strings. -/
def strContains (s pat : String) : Bool := charsContains pat.data s.data

/-! ## HealthChecker (`app/handler.py` lines 31-96)

Wall-clock times (`time.time()`) are modelled as integers; the liveness of
the managed process (`comfy_manager.is_running()`) and the outcome of the
HTTP probe `requests.get("http://127.0.0.1:8188/")` are inputs. -/

/-- Mutable state of a `HealthChecker` instance, plus the configuration
fields set in `__init__` (`health_check_interval = 10`, `max_failures = 3`). -/
structure HealthChecker where
  last_health_check : Int
  health_check_interval : Int
  consecutive_failures : Nat
  max_failures : Nat
deriving DecidableEq

/-- `HealthChecker.__init__`. -/
def HealthChecker.init : HealthChecker :=
  { last_health_check := 0
  , health_check_interval := 10
  , consecutive_failures := 0
  , max_failures := 3 }

/-- Outcome of the HTTP liveness probe: a response with a status code, or a
raised exception carrying its message string. -/
inductive ProbeResult where
  | resp (status_code : Nat)
  | exc (msg : String)
deriving DecidableEq

/-- The dict returned by `check_health`; the debounced return carries no
`consecutive_failures` key, hence the `Option`. -/
structure HealthReport where
  status : String
  message : String
  consecutive_failures : Option Nat
deriving DecidableEq

/-- What `check_health` touched: whether it consulted the process manager,
and how many HTTP probes it issued. -/
structure CheckEffects where
  consulted_manager : Bool
  http_probes : Nat
deriving DecidableEq

/-- The exception-message test on line 71: `"ComfyUI startup time" in str(e)
or "Connection refused" in str(e)`. -/
def startupMarker (msg : String) : Bool :=
  strContains msg "ComfyUI startup time" || strContains msg "Connection refused"

/-- `HealthChecker.check_health`, lines 39-92.  `now` is `time.time()`,
`running` is `self.comfy_manager.is_running()`, `probe` the result of the
`requests.get` liveness probe. -/
def HealthChecker.check_health (hc : HealthChecker) (now : Int) (running : Bool)
    (probe : ProbeResult) : HealthReport × HealthChecker × CheckEffects :=
  if now - hc.last_health_check < hc.health_check_interval then
    (⟨"ok", "Health check skipped (too recent)", none⟩, hc, ⟨false, 0⟩)
  else
    let hc1 := { hc with last_health_check := now }
    if !running then
      let hc2 := { hc1 with consecutive_failures := hc1.consecutive_failures + 1 }
      (⟨"error", "ComfyUI process not running", some hc2.consecutive_failures⟩, hc2, ⟨true, 0⟩)
    else
      match probe with
      | ProbeResult.resp code =>
        if code != 200 then
          let hc2 := { hc1 with consecutive_failures := hc1.consecutive_failures + 1 }
          (⟨"error", "ComfyUI HTTP returned status " ++ toString code,
            some hc2.consecutive_failures⟩, hc2, ⟨true, 1⟩)
        else
          let hc2 := { hc1 with consecutive_failures := 0 }
          (⟨"healthy", "ComfyUI is running normally", some 0⟩, hc2, ⟨true, 1⟩)
      | ProbeResult.exc msg =>
        if startupMarker msg then
          (⟨"starting", "ComfyUI is starting up", some 0⟩, hc1, ⟨true, 1⟩)
        else
          let hc2 := { hc1 with consecutive_failures := hc1.consecutive_failures + 1 }
          (⟨"error", "ComfyUI HTTP unreachable: " ++ msg,
            some hc2.consecutive_failures⟩, hc2, ⟨true, 1⟩)

/-- `HealthChecker.should_restart`, lines 94-96. -/
def HealthChecker.should_restart (hc : HealthChecker) : Bool :=
  hc.consecutive_failures ≥ hc.max_failures

/-- An input on which a real (non-debounced) `check_health` takes one of the
failure-counting branches: process not running, non-200 response, or an
exception without a startup marker. -/
def judgedFailure : Bool → ProbeResult → Bool
  | false, _ => true
  | true, ProbeResult.resp code => code != 200
  | true, ProbeResult.exc msg => !startupMarker msg

/-- Run a sequence of `check_health` calls, keeping only the evolving
checker state; each list entry is `(now, running, probe)`. -/
def runChecks (hc : HealthChecker) : List (Int × Bool × ProbeResult) → HealthChecker
  | [] => hc
  | (t, r, p) :: rest => runChecks (hc.check_health t r p).2.1 rest

/-! ## ComfyUIManager (`app/handler.py` lines 101-226)

The subprocess handle is modelled by its pid together with what
`Popen.poll()` observes at the call (`alive = (poll() is None)`).  The
monitor thread spawned on line 152-155 is a concurrent side effect outside
the embedded state; no claim concerns it. -/

/-- A spawned child process as seen through `self.process`. -/
structure ChildProc where
  pid : Nat
  alive : Bool
deriving DecidableEq

/-- Mutable state of a `ComfyUIManager` instance (`__init__` defaults:
`max_restarts = 10`, `restart_cooldown = 60`). -/
structure ComfyUIManager where
  process : Option ChildProc
  running : Bool
  restart_count : Nat
  max_restarts : Nat
  last_restart : Int
  restart_cooldown : Int
deriving DecidableEq

/-- `ComfyUIManager.__init__`. -/
def ComfyUIManager.init : ComfyUIManager :=
  { process := none
  , running := false
  , restart_count := 0
  , max_restarts := 10
  , last_restart := 0
  , restart_cooldown := 60 }

/-- `self.process and self.process.poll() is None`. -/
def pollAlive : Option ChildProc → Bool
  | some p => p.alive
  | none => false

/-- Outcome of `subprocess.Popen`: a new pid, or a raised exception. -/
inductive SpawnOutcome where
  | ok (pid : Nat)
  | fail
deriving DecidableEq

/-- What one `start()` call returned and did: its boolean result, the
manager state afterwards, and whether a child process was spawned. -/
structure StartResult where
  ok : Bool
  state : ComfyUIManager
  spawned : Bool
deriving DecidableEq

/-- `ComfyUIManager.start`, lines 120-161.  `now` is `time.time()`; `spawn`
is the outcome of the `subprocess.Popen` call, reached only when neither the
already-running fast path nor the restart throttle returns first. -/
def ComfyUIManager.start (m : ComfyUIManager) (now : Int) (spawn : SpawnOutcome) : StartResult :=
  if pollAlive m.process then
    ⟨true, m, false⟩
  else if m.restart_count ≥ m.max_restarts ∧ now - m.last_restart < m.restart_cooldown then
    ⟨false, m, false⟩
  else
    match spawn with
    | SpawnOutcome.ok pid =>
      ⟨true, { m with process := some ⟨pid, true⟩,
                      running := true,
                      restart_count := m.restart_count + 1,
                      last_restart := now }, true⟩
    | SpawnOutcome.fail => ⟨false, m, false⟩

/-- Fold `start` over a list of `(now, spawn-outcome)` call inputs,
collecting each call's `StartResult`. -/
def startSeq (m : ComfyUIManager) : List (Int × SpawnOutcome) → ComfyUIManager × List StartResult
  | [] => (m, [])
  | (t, sp) :: rest =>
    let r := m.start t sp
    ((startSeq r.state rest).1, r :: (startSeq r.state rest).2)

/-- How the child process reacts to `stop()`'s signalling, covering the
branches of lines 165-177. -/
inductive StopBehavior where
  /-- `os.kill(pid, SIGTERM)` raises `ProcessLookupError`. -/
  | lookupGone
  /-- the process exits within the 10 s graceful wait. -/
  | exitsOnTerm
  /-- the graceful wait times out and `SIGKILL` is delivered. -/
  | needsKill
  /-- the graceful wait times out and `os.kill(pid, SIGKILL)` raises
  `ProcessLookupError` (caught by the same handler). -/
  | lookupGoneOnKill
deriving DecidableEq

/-- A signal passed to `os.kill`. -/
inductive Signal where
  | sigterm
  | sigkill
deriving DecidableEq

/-- `ComfyUIManager.stop`, lines 163-179: the state afterwards and the list
of `os.kill` attempts made. -/
def ComfyUIManager.stop (m : ComfyUIManager) (beh : StopBehavior) :
    ComfyUIManager × List Signal :=
  let sigs :=
    if pollAlive m.process then
      match beh with
      | StopBehavior.lookupGone => [Signal.sigterm]
      | StopBehavior.exitsOnTerm => [Signal.sigterm]
      | StopBehavior.needsKill => [Signal.sigterm, Signal.sigkill]
      | StopBehavior.lookupGoneOnKill => [Signal.sigterm, Signal.sigkill]
    else []
  ({ m with running := false, process := none }, sigs)

/-- `ComfyUIManager.is_running`, lines 200-204. -/
def ComfyUIManager.is_running (m : ComfyUIManager) : Bool :=
  pollAlive m.process && m.running

/-! ## Engine-side records (parsed JSON, `app/handler.py` lines 470-518)

`.get` defaults from the source (`subfolder` → `""`, `type` → `"output"`,
`status` → `{}`, `outputs` → `{}`, `messages` → `[]`) are applied at the
parsing boundary, so the record fields here are total. -/

/-- One entry of a node output's `images` list. -/
structure ImgInfo where
  filename : String
  subfolder : String
  type : String
deriving DecidableEq

/-- One value of the history record's `outputs` mapping; `images` is present
only when the node produced images. -/
structure NodeOutput where
  images : Option (List ImgInfo)
deriving DecidableEq

/-- The `status` object of a history record. -/
structure StatusRec where
  status_str : Option String
  messages : List String
deriving DecidableEq

/-- The history record stored under the prompt id. -/
structure PromptHistory where
  status : StatusRec
  outputs : List (String × NodeOutput)
deriving DecidableEq

/-! ## base64 encoding (`base64.b64encode(...).decode("utf-8")`)

Binary artifact payloads are byte lists. -/

/-- The base64 alphabet. -/
def base64Chars : List Char :=
  "ABCDEFGHIJKLMNOPQRSTUVWXYZabcdefghijklmnopqrstuvwxyz0123456789+/".data

/-- The base64 digit for a 6-bit value. -/
def b64Char (n : Nat) : Char := base64Chars.getD n 'A'

/-- Standard base64 of a byte list, as characters, with `=` padding. -/
def b64EncodeChars : List Nat → List Char
  | [] => []
  | [a] =>
    [b64Char (a / 4), b64Char (a % 4 * 16), '=', '=']
  | [a, b] =>
    [b64Char (a / 4), b64Char (a % 4 * 16 + b / 16), b64Char (b % 16 * 4), '=']
  | a :: b :: c :: rest =>
    b64Char (a / 4) :: b64Char (a % 4 * 16 + b / 16) ::
      b64Char (b % 16 * 4 + c / 64) :: b64Char (c % 64) :: b64EncodeChars rest

/-- `base64.b64encode(bytes).decode("utf-8")`. -/
def b64encode (bs : List Nat) : String := ⟨b64EncodeChars bs⟩

/-! ## process_comfyui_workflow (`app/handler.py` lines 393-529) -/

/-- Result of one `requests.get` on the `/view` endpoint: a response with a
status code and body bytes, or a raised exception. -/
inductive ViewRes where
  | http (code : Nat) (content : List Nat)
  | exc (msg : String)
deriving DecidableEq

/-- One entry of the result's `images` list (lines 503-507 / rp 108-114). -/
structure ImageResult where
  filename : String
  type : String
  data : String
deriving DecidableEq

/-- The dict returned by `process_workflow` / `process_comfyui_workflow`:
always a `status` and a `message`, plus `images` on success. -/
structure WfResult where
  status : String
  message : String
  images : Option (List ImageResult)
deriving DecidableEq

/-- Lines 486-507: fetch each image of one node via `/view`.  A raised
exception propagates (to the poll-loop `except` on line 520); a non-200
response silently skips that image.  Also counts the `/view` requests
issued. -/
def fetchImages (view : ImgInfo → ViewRes) : List ImgInfo → Except String (List ImageResult) × Nat
  | [] => (Except.ok [], 0)
  | img :: rest =>
    match view img with
    | ViewRes.exc msg => (Except.error msg, 1)
    | ViewRes.http code content =>
      let (r, n) := fetchImages view rest
      if code = 200 then
        (r.map (fun l =>
          ⟨img.filename, "base64", "data:image/png;base64," ++ b64encode content⟩ :: l), n + 1)
      else
        (r, n + 1)

/-- Lines 484-507: walk the history record's `outputs`, fetching the images
of every node that has an `images` key. -/
def collectOutputs (view : ImgInfo → ViewRes) :
    List (String × NodeOutput) → Except String (List ImageResult) × Nat
  | [] => (Except.ok [], 0)
  | (_, node) :: rest =>
    match node.images with
    | none => collectOutputs view rest
    | some imgs =>
      let (r1, n1) := fetchImages view imgs
      match r1 with
      | Except.error msg => (Except.error msg, n1)
      | Except.ok l1 =>
        let (r2, n2) := collectOutputs view rest
        (r2.map (fun l2 => l1 ++ l2), n1 + n2)

/-- `"; ".join(messages) if messages else "Unknown error"` (line 517). -/
def joinMessages (ms : List String) : String :=
  if ms.isEmpty then "Unknown error" else String.intercalate "; " ms

/-- Result of one `requests.get` on `/history/{prompt_id}`: a raised
exception, or a response with a status code and, when the body is consulted,
the record stored under the prompt id (if any). -/
inductive HistRes where
  | exc (msg : String)
  | http (code : Nat) (record : Option PromptHistory)
deriving DecidableEq

/-- Environment of the poll loop: `t i` is the `time.time()` read at the
`i`-th loop-condition check, `hist i` the `i`-th history request's outcome,
`view i` the `/view` endpoint as seen during iteration `i`. -/
structure PollEnv where
  t : Nat → Int
  hist : Nat → HistRes
  view : Nat → ImgInfo → ViewRes

/-- Poll loop of lines 464-525 (`max_wait = 1200`).  `i` is the iteration
index, `acc` the engine requests issued so far, `fuel` a bound on the
remaining iterations (`none` = fuel exhausted before the loop returned; the
Python loop has no such case).  On success/error/timeout returns the result
dict together with the total engine-request count. -/
def pollLoop (env : PollEnv) (tstart : Int) : Nat → Nat → Nat → Option (WfResult × Nat)
  | _, _, 0 => none
  | i, acc, fuel + 1 =>
    if env.t i - tstart < 1200 then
      match env.hist i with
      | HistRes.exc _ => pollLoop env tstart (i + 1) (acc + 1) fuel
      | HistRes.http code record =>
        if code = 200 then
          match record with
          | some ph =>
            if ph.status.status_str = some "success" then
              match collectOutputs (env.view i) ph.outputs with
              | (Except.ok imgs, n) =>
                some (⟨"success",
                       "Generated " ++ toString imgs.length ++ " image(s)",
                       some imgs⟩, acc + 1 + n)
              | (Except.error _, n) => pollLoop env tstart (i + 1) (acc + 1 + n) fuel
            else if ph.status.status_str = some "error" then
              some (⟨"error", "Workflow failed: " ++ joinMessages ph.status.messages, none⟩,
                    acc + 1)
            else pollLoop env tstart (i + 1) (acc + 1) fuel
          | none => pollLoop env tstart (i + 1) (acc + 1) fuel
        else pollLoop env tstart (i + 1) (acc + 1) fuel
    else some (⟨"error", "Workflow timed out after 20 minutes", none⟩, acc)

/-- Result of an HTTP request where only the status code is consulted. -/
inductive HttpRes where
  | http (code : Nat)
  | exc (msg : String)
deriving DecidableEq

/-- One image-upload attempt (lines 416-443): the base64 decode may raise
before any request is made; otherwise the POST is issued and its outcome is
only logged. -/
inductive UploadStep where
  | decodeFail
  | posted (res : HttpRes)

/-- Result of the `POST /prompt` submission (lines 447-459): a raised
exception, or a response with its status code, body text, and the
`prompt_id` field of its JSON body. -/
inductive SubmitRes where
  | exc (msg : String)
  | http (code : Nat) (text : String) (prompt_id : Option String)
deriving DecidableEq

/-- Engine environment of one `process_comfyui_workflow` call. -/
structure WorkflowEnv where
  root : HttpRes
  upload : Nat → UploadStep
  submit : SubmitRes
  tstart : Int
  poll : PollEnv

/-- Number of upload POSTs issued for `n` input images. -/
def uploadCalls (upload : Nat → UploadStep) : Nat → Nat
  | 0 => 0
  | n + 1 =>
    uploadCalls upload n +
      (match upload n with
       | UploadStep.decodeFail => 0
       | UploadStep.posted _ => 1)

/-- `process_comfyui_workflow` (lines 393-529): liveness check on the root
endpoint, best-effort image uploads, workflow submission, then the poll
loop.  `images` is the length of the `images` argument (its elements only
feed the upload attempts, whose outcomes `env.upload` supplies).  Returns
the result dict and the number of engine requests issued. -/
def process_comfyui_workflow (images : Nat) (env : WorkflowEnv) (fuel : Nat) :
    Option (WfResult × Nat) :=
  match env.root with
  | HttpRes.exc msg => some (⟨"error", "ComfyUI is not reachable: " ++ msg, none⟩, 1)
  | HttpRes.http code =>
    if code ≠ 200 then some (⟨"error", "ComfyUI is not responding", none⟩, 1)
    else
      let up := uploadCalls env.upload images
      match env.submit with
      | SubmitRes.exc msg => some (⟨"error", "Processing error: " ++ msg, none⟩, 1 + up + 1)
      | SubmitRes.http scode text pid =>
        if scode ≠ 200 then
          some (⟨"error", "Failed to submit workflow: " ++ text, none⟩, 1 + up + 1)
        else
          match pid with
          | none => some (⟨"error", "No prompt_id received from ComfyUI", none⟩, 1 + up + 1)
          | some _ =>
            (pollLoop env.poll env.tstart 0 0 fuel).map (fun r => (r.1, 1 + up + 1 + r.2))

/-- Python truthiness of `request.get("workflow")`: `not workflow` holds for
a missing key and for an empty mapping.  The payload is opaque to the
handler (it is only forwarded), so it is modelled by its key list. -/
def workflowFalsy : Option (List String) → Bool
  | none => true
  | some w => w.isEmpty

/-- The request dict of `process_workflow`: its `workflow` entry and the
length of its `images` list. -/
structure JobRequest where
  workflow : Option (List String)
  images : Nat

/-- `process_workflow` (`app/handler.py` lines 370-391): payload truthiness
check, pre-flight `manager.is_running()` check, then
`process_comfyui_workflow`.  Second component counts engine requests. -/
def process_workflow (req : JobRequest) (m : ComfyUIManager) (env : WorkflowEnv)
    (fuel : Nat) : Option (WfResult × Nat) :=
  if workflowFalsy req.workflow then
    some (⟨"error", "No workflow provided", none⟩, 0)
  else if !m.is_running then
    some (⟨"error", "ComfyUI is not running", none⟩, 0)
  else
    process_comfyui_workflow req.images env fuel

/-! ## rp_handler (`app/rp_handler.py`)

`queue_workflow`, `get_history` and `get_image` all call
`raise_for_status()`, so a non-2xx response surfaces as a raised exception;
each outcome is therefore an `Except`. -/

namespace Rp

/-- The `job["input"]` value as validation sees it: a falsy value
(`None`/`""`/`{}`), a string `json.loads` rejects, or a mapping (possibly
one obtained by parsing a string) with its `workflow` entry.  The workflow
payload is opaque and modelled by its key list. -/
inductive JobInput where
  | falsy
  | badJson
  | mapping (workflow : Option (List String))

/-- `validate_input` (`rp_handler.py` lines 16-29), returning either the
error string or the validated workflow. -/
def validate_input : JobInput → Except String (List String)
  | JobInput.falsy => Except.error "Missing input"
  | JobInput.badJson => Except.error "Invalid JSON input"
  | JobInput.mapping none => Except.error "Missing 'workflow' parameter"
  | JobInput.mapping (some w) =>
    if w.isEmpty then Except.error "Missing 'workflow' parameter" else Except.ok w

/-- Outcome of one `get_history` call at a given poll iteration: a raised
exception (transport or `raise_for_status`), a 200 body without the prompt
id, or the prompt record with its optional `outputs` mapping. -/
inductive HistObs where
  | exc (msg : String)
  | absent
  | present (outputs : Option (List (String × NodeOutput)))

/-- Outcome of one `get_image` call: the body bytes, or a raised exception
(transport or `raise_for_status`). -/
inductive FetchRes where
  | ok (content : List Nat)
  | exc (msg : String)
deriving DecidableEq

/-- Engine environment of one `handler` call: the submission outcome (the
`prompt_id` field of the parsed response, or a raised exception), the
history observation per poll iteration, and the `get_image` outcome per
iteration and per fetch ordinal within that iteration. -/
structure Env where
  queue : Except String (Option String)
  hist : Nat → HistObs
  view : Nat → Nat → FetchRes

/-- Lines 98-114: fetch the images of one node in order, skipping entries
whose `type` is `"temp"` (no request made for those).  `k` is the ordinal of
the next fetch within this iteration; a fetch exception aborts with its
message. -/
def fetchList (view : Nat → FetchRes) : Nat → List ImgInfo → Except String (List ImageResult × Nat)
  | k, [] => Except.ok ([], k)
  | k, img :: rest =>
    if img.type == "temp" then fetchList view k rest
    else
      match view k with
      | FetchRes.exc msg => Except.error msg
      | FetchRes.ok content =>
        (fetchList view (k + 1) rest).map
          (fun p => (⟨img.filename, "base64", b64encode content⟩ :: p.1, p.2))

/-- Lines 96-116: walk the record's `outputs`, fetching the images of every
node that has an `images` key. -/
def collect (view : Nat → FetchRes) :
    Nat → List (String × NodeOutput) → Except String (List ImageResult × Nat)
  | k, [] => Except.ok ([], k)
  | k, (_, node) :: rest =>
    match node.images with
    | none => collect view k rest
    | some imgs =>
      match fetchList view k imgs with
      | Except.error msg => Except.error msg
      | Except.ok (l1, k1) =>
        (collect view k1 rest).map (fun p => (l1 ++ p.1, p.2))

/-- The handler's return dict: `{"status": "completed", "images": ...}` or
`{"error": ...}`. -/
inductive Result where
  | completed (images : List ImageResult)
  | error (msg : String)
deriving DecidableEq

/-- Poll loop of lines 88-121 (`for _ in range(60)`).  A `get_history`
exception propagates to the outer `except` and ends the whole handler; a
fetch failure returns the `"Failed to fetch image"` error; exhausting the 60
iterations returns the timeout error. -/
def poll (env : Env) : Nat → Nat → Result
  | _, 0 => Result.error "Timeout waiting for workflow to complete"
  | i, n + 1 =>
    match env.hist i with
    | HistObs.exc msg => Result.error msg
    | HistObs.absent => poll env (i + 1) n
    | HistObs.present none => poll env (i + 1) n
    | HistObs.present (some outs) =>
      match collect (env.view i) 0 outs with
      | Except.error msg => Result.error ("Failed to fetch image: " ++ msg)
      | Except.ok (imgs, _) => Result.completed imgs

/-- `handler` (`rp_handler.py` lines 70-124): validation, submission via
`queue_workflow`, then up to 60 history polls. -/
def handler (input : JobInput) (env : Env) : Result :=
  match validate_input input with
  | Except.error e => Result.error e
  | Except.ok _ =>
    match env.queue with
    | Except.error msg => Result.error msg
    | Except.ok none => Result.error "No prompt_id returned from ComfyUI"
    | Except.ok (some _) => poll env 0 60

end Rp

/-! ## Theorems: ComfyUIManager claims -/

/-- Claim C9 (confirmed): `stop()` is idempotent — after any `stop()`,
`is_running()` is false (the forceful-kill fallback and the tolerated
`ProcessLookupError` are among the quantified behaviours), and a second
consecutive `stop()` yields the same state (`running = false`, cleared
handle) while attempting no process signalling. -/
theorem stop_idempotent (m : ComfyUIManager) (b1 b2 : StopBehavior) :
    (m.stop b1).1.is_running = false ∧
    ((m.stop b1).1.stop b2).1 = (m.stop b1).1 ∧
    ((m.stop b1).1.stop b2).2 = [] := by
  cases m
  simp [ComfyUIManager.stop, ComfyUIManager.is_running, pollAlive]

/-- Claim C5 (confirmed): while the supervised process is a live OS process,
every `start()` in any sequence of calls is a no-op returning success: the
state (pid, `restart_count`, everything) is unchanged and nothing is
spawned. -/
theorem start_noop_when_running (m : ComfyUIManager) (calls : List (Int × SpawnOutcome))
    (h : pollAlive m.process = true) :
    (startSeq m calls).1 = m ∧
    ∀ r ∈ (startSeq m calls).2, r = ⟨true, m, false⟩ := by
  induction calls with
  | nil => simp [startSeq]
  | cons c rest ih =>
    obtain ⟨t, sp⟩ := c
    have hstart : m.start t sp = ⟨true, m, false⟩ := by
      simp [ComfyUIManager.start, h]
    simp only [startSeq, hstart]
    refine ⟨ih.1, ?_⟩
    intro r hr
    rcases List.mem_cons.mp hr with hr | hr
    · exact hr
    · exact ih.2 r hr

/-- Witness for C5 on a concrete running manager and a two-call sequence. -/
theorem start_noop_when_running_witness :
    (startSeq ⟨some ⟨7, true⟩, true, 1, 10, 0, 60⟩
        [(5, SpawnOutcome.ok 9), (6, SpawnOutcome.fail)]).1 =
      ⟨some ⟨7, true⟩, true, 1, 10, 0, 60⟩ :=
  (start_noop_when_running ⟨some ⟨7, true⟩, true, 1, 10, 0, 60⟩
    [(5, SpawnOutcome.ok 9), (6, SpawnOutcome.fail)] rfl).1

/-- Claim C3 (confirmed): with the process not running and `Popen`
succeeding, `start()` fails (returning `False`, spawning nothing) exactly
when `restart_count` has reached `max_restarts` and the time since
`last_restart` is under `restart_cooldown`; once the cooldown has elapsed it
launches again. -/
theorem start_restart_throttle (m : ComfyUIManager) (now : Int) (pid : Nat)
    (hdead : pollAlive m.process = false) :
    ((m.start now (SpawnOutcome.ok pid)).ok = false ∧
       (m.start now (SpawnOutcome.ok pid)).spawned = false ↔
     m.restart_count ≥ m.max_restarts ∧ now - m.last_restart < m.restart_cooldown) ∧
    (now - m.last_restart ≥ m.restart_cooldown →
      (m.start now (SpawnOutcome.ok pid)).ok = true ∧
      (m.start now (SpawnOutcome.ok pid)).spawned = true) := by
  unfold ComfyUIManager.start
  rw [hdead]
  by_cases hth : m.restart_count ≥ m.max_restarts ∧ now - m.last_restart < m.restart_cooldown
  · constructor
    · simp [hth]
    · intro hcool
      exact absurd hth (by omega)
  · constructor
    · simp [hth]
    · intro _
      simp [hth]

/-- Witness for C3: `max_restarts = 2`, `restart_cooldown = 60`, second
restart stamped at time 100 — a third `start()` at 130 is throttled, one at
160 launches. -/
theorem start_restart_throttle_witness :
    ((⟨none, false, 2, 2, 100, 60⟩ : ComfyUIManager).start 130 (SpawnOutcome.ok 5)).ok
      = false ∧
    ((⟨none, false, 2, 2, 100, 60⟩ : ComfyUIManager).start 160 (SpawnOutcome.ok 5)).ok
      = true := by
  constructor
  · exact ((start_restart_throttle ⟨none, false, 2, 2, 100, 60⟩ 130 5 rfl).1.mpr
      (by constructor <;> decide)).1
  · exact ((start_restart_throttle ⟨none, false, 2, 2, 100, 60⟩ 160 5 rfl).2
      (by decide)).1


/-! ## Theorems: HealthChecker claims -/

/-- The debounce branch of `check_health`: inside the interval the skip
report is returned and nothing at all happens. -/
theorem check_health_skip (hc : HealthChecker) (now : Int) (r : Bool) (p : ProbeResult)
    (h : now - hc.last_health_check < hc.health_check_interval) :
    hc.check_health now r p =
      (⟨"ok", "Health check skipped (too recent)", none⟩, hc, ⟨false, 0⟩) := by
  unfold HealthChecker.check_health
  rw [if_pos h]

/-- A real (non-debounced) check stamps `last_health_check` with the call
time and leaves the configured interval untouched. -/
theorem check_health_real_admin (hc : HealthChecker) (now : Int) (r : Bool) (p : ProbeResult)
    (hd : now - hc.last_health_check ≥ hc.health_check_interval) :
    (hc.check_health now r p).2.1.last_health_check = now ∧
    (hc.check_health now r p).2.1.health_check_interval = hc.health_check_interval := by
  unfold HealthChecker.check_health
  rw [if_neg (by omega)]
  cases r
  · simp
  · cases p with
    | resp code =>
      by_cases hcode : (code != 200) = true <;> simp [hcode]
    | exc msg =>
      by_cases hm : startupMarker msg = true <;> simp [hm]

/-- A real check on a judged failure bumps the counter by one and stamps the
time; nothing else changes. -/
theorem check_health_fail_step (hc : HealthChecker) (now : Int) (r : Bool) (p : ProbeResult)
    (hd : now - hc.last_health_check ≥ hc.health_check_interval)
    (hf : judgedFailure r p = true) :
    (hc.check_health now r p).2.1 =
      { hc with last_health_check := now,
                consecutive_failures := hc.consecutive_failures + 1 } := by
  unfold HealthChecker.check_health
  rw [if_neg (by omega)]
  cases r
  · rfl
  · cases p with
    | resp code =>
      have hcode : (code != 200) = true := hf
      simp [hcode]
    | exc msg =>
      have hm : startupMarker msg = false := by
        have : (!startupMarker msg) = true := hf
        simpa using this
      simp [hm]

/-- A real check answered 200 with the process running resets the counter to
zero. -/
theorem check_health_success_step (hc : HealthChecker) (now : Int)
    (hd : now - hc.last_health_check ≥ hc.health_check_interval) :
    (hc.check_health now true (ProbeResult.resp 200)).2.1 =
      { hc with last_health_check := now, consecutive_failures := 0 } := by
  unfold HealthChecker.check_health
  rw [if_neg (by omega)]
  rfl

/-- Claim C7 (confirmed): a second `check_health` call less than
`health_check_interval` after a real check returns the skip report (the
spec's `ok-skipped` status: `"ok"` with the skipped message and no failure
count), performs no HTTP probe, does not consult the process manager, and
leaves the whole checker state — `consecutive_failures` and
`last_health_check` included — unchanged. -/
theorem check_health_debounced_second_call (hc : HealthChecker) (t1 t2 : Int)
    (r1 r2 : Bool) (p1 p2 : ProbeResult)
    (hd1 : t1 - hc.last_health_check ≥ hc.health_check_interval)
    (h12 : t2 - t1 < hc.health_check_interval) :
    (hc.check_health t1 r1 p1).2.1.check_health t2 r2 p2 =
      (⟨"ok", "Health check skipped (too recent)", none⟩,
       (hc.check_health t1 r1 p1).2.1, ⟨false, 0⟩) := by
  obtain ⟨hl, hi⟩ := check_health_real_admin hc t1 r1 p1 hd1
  exact check_health_skip _ t2 r2 p2 (by rw [hl, hi]; omega)

/-- Witness for C7: from the freshly initialised checker, a real check at
time 100 followed by a call at time 105. -/
theorem check_health_debounced_second_call_witness :
    ((HealthChecker.init.check_health 100 true (ProbeResult.resp 200)).2.1.check_health
        105 true (ProbeResult.resp 200)) =
      (⟨"ok", "Health check skipped (too recent)", none⟩,
       (HealthChecker.init.check_health 100 true (ProbeResult.resp 200)).2.1,
       ⟨false, 0⟩) :=
  check_health_debounced_second_call HealthChecker.init 100 105 true true
    (ProbeResult.resp 200) (ProbeResult.resp 200) (by decide) (by decide)

/-- Claim C4 counterexample: a probe timeout — exception message
`"Read timed out."`, which contains neither `"Connection refused"` nor
`"ComfyUI startup time"` — is NOT classified `starting`: past the debounce
window, with the process running and a fresh counter, `check_health` returns
status `"error"` and increments the consecutive-failure counter to 1. -/
theorem timeout_counted_as_failure_counterexample :
    (HealthChecker.check_health ⟨0, 10, 0, 3⟩ 100 true
        (ProbeResult.exc "Read timed out.")).1.status = "error" ∧
    (HealthChecker.check_health ⟨0, 10, 0, 3⟩ 100 true
        (ProbeResult.exc "Read timed out.")).2.1.consecutive_failures = 1 := by
  constructor <;> rfl

/-- Claim C4 (amended): past the debounce window with the process running, a
probe exception is classified `starting` — returned status `"starting"`,
counter not incremented — exactly when its message contains
`"Connection refused"` or the literal `"ComfyUI startup time"`; any other
exception (a plain read timeout included) increments the counter and yields
`"error"`; a 200 probe resets the counter to 0. -/
theorem check_health_exception_classification (hc : HealthChecker) (now : Int)
    (hd : now - hc.last_health_check ≥ hc.health_check_interval) :
    (∀ msg, startupMarker msg = true →
       (hc.check_health now true (ProbeResult.exc msg)).1.status = "starting" ∧
       (hc.check_health now true (ProbeResult.exc msg)).2.1.consecutive_failures
         = hc.consecutive_failures) ∧
    (∀ msg, startupMarker msg = false →
       (hc.check_health now true (ProbeResult.exc msg)).1.status = "error" ∧
       (hc.check_health now true (ProbeResult.exc msg)).2.1.consecutive_failures
         = hc.consecutive_failures + 1) ∧
    (hc.check_health now true (ProbeResult.resp 200)).2.1.consecutive_failures = 0 := by
  refine ⟨?_, ?_, ?_⟩
  · intro msg hm
    unfold HealthChecker.check_health
    rw [if_neg (by omega)]
    simp [hm]
  · intro msg hm
    unfold HealthChecker.check_health
    rw [if_neg (by omega)]
    simp [hm]
  · rw [check_health_success_step hc now hd]

/-- Witness for C4 (amended), at the fresh checker, time 100, with a
connection-refused message, a timeout message, and a 200 probe. -/
theorem check_health_exception_classification_witness :
    (HealthChecker.init.check_health 100 true
        (ProbeResult.exc "Connection refused")).1.status = "starting" ∧
    (HealthChecker.init.check_health 100 true
        (ProbeResult.exc "Read timed out.")).2.1.consecutive_failures = 1 ∧
    (HealthChecker.init.check_health 100 true
        (ProbeResult.resp 200)).2.1.consecutive_failures = 0 := by
  refine ⟨?_, ?_, ?_⟩
  · exact ((check_health_exception_classification HealthChecker.init 100 (by decide)).1
      "Connection refused" (by decide)).1
  · exact ((check_health_exception_classification HealthChecker.init 100 (by decide)).2.1
      "Read timed out." (by decide)).2
  · exact (check_health_exception_classification HealthChecker.init 100 (by decide)).2.2

/-- Claim C10 (confirmed): when a probe failure is classified `starting`,
the returned report says `consecutive_failures = 0` while the internal
counter keeps its previous value (neither incremented nor reset), so
`should_restart()` right afterwards still reflects the pre-`starting`
count — the reported field can disagree with the internal state (the
witness instantiates this with an internal count of 3). -/
theorem starting_report_masks_internal_counter (hc : HealthChecker) (now : Int)
    (msg : String)
    (hd : now - hc.last_health_check ≥ hc.health_check_interval)
    (hm : startupMarker msg = true) :
    (hc.check_health now true (ProbeResult.exc msg)).1.status = "starting" ∧
    (hc.check_health now true (ProbeResult.exc msg)).1.consecutive_failures = some 0 ∧
    (hc.check_health now true (ProbeResult.exc msg)).2.1.consecutive_failures
      = hc.consecutive_failures ∧
    ((hc.check_health now true (ProbeResult.exc msg)).2.1).should_restart
      = hc.should_restart := by
  unfold HealthChecker.check_health
  rw [if_neg (by omega)]
  simp [hm, HealthChecker.should_restart]

/-- Witness for C10: an internal count of 3 (restart threshold already
reached); the `starting` report claims 0 failures while the state keeps 3
and `should_restart` stays true. -/
theorem starting_report_masks_internal_counter_witness :
    (HealthChecker.check_health ⟨0, 10, 3, 3⟩ 100 true
        (ProbeResult.exc "Connection refused")).1.consecutive_failures = some 0 ∧
    (HealthChecker.check_health ⟨0, 10, 3, 3⟩ 100 true
        (ProbeResult.exc "Connection refused")).2.1.consecutive_failures = 3 ∧
    ((HealthChecker.check_health ⟨0, 10, 3, 3⟩ 100 true
        (ProbeResult.exc "Connection refused")).2.1).should_restart = true := by
  refine ⟨?_, ?_, ?_⟩
  · exact (starting_report_masks_internal_counter ⟨0, 10, 3, 3⟩ 100
      "Connection refused" (by decide) (by decide)).2.1
  · exact (starting_report_masks_internal_counter ⟨0, 10, 3, 3⟩ 100
      "Connection refused" (by decide) (by decide)).2.2.1
  · exact (starting_report_masks_internal_counter ⟨0, 10, 3, 3⟩ 100
      "Connection refused" (by decide) (by decide)).2.2.2.trans rfl

/-- Claim C6 (confirmed): with the configured threshold 3, `should_restart`
is true iff `consecutive_failures ≥ 3` (a pure function of the state); after
three consecutive real `check_health` calls each observing a judged failure
it returns true, and a successful (200) check resets the counter to 0, after
which it returns false. -/
theorem should_restart_spec :
    (∀ hc : HealthChecker, hc.max_failures = 3 →
       (hc.should_restart = true ↔ hc.consecutive_failures ≥ 3)) ∧
    (∀ (hc : HealthChecker) (t1 t2 t3 : Int) (r1 r2 r3 : Bool) (p1 p2 p3 : ProbeResult),
       hc.max_failures = 3 →
       t1 - hc.last_health_check ≥ hc.health_check_interval →
       t2 - t1 ≥ hc.health_check_interval →
       t3 - t2 ≥ hc.health_check_interval →
       judgedFailure r1 p1 = true → judgedFailure r2 p2 = true →
       judgedFailure r3 p3 = true →
       (runChecks hc [(t1, r1, p1), (t2, r2, p2), (t3, r3, p3)]).should_restart = true) ∧
    (∀ (hc : HealthChecker) (t : Int),
       t - hc.last_health_check ≥ hc.health_check_interval →
       (hc.check_health t true (ProbeResult.resp 200)).2.1.consecutive_failures = 0 ∧
       (hc.max_failures = 3 →
         ((hc.check_health t true (ProbeResult.resp 200)).2.1).should_restart = false)) := by
  refine ⟨?_, ?_, ?_⟩
  · intro hc hmax
    simp [HealthChecker.should_restart, hmax]
  · intro hc t1 t2 t3 r1 r2 r3 p1 p2 p3 hmax hd1 hd2 hd3 hf1 hf2 hf3
    simp only [runChecks]
    rw [check_health_fail_step hc t1 r1 p1 hd1 hf1]
    rw [check_health_fail_step _ t2 r2 p2 (by simpa using hd2) hf2]
    rw [check_health_fail_step _ t3 r3 p3 (by simpa using hd3) hf3]
    simp [HealthChecker.should_restart, hmax]
  · intro hc t hd
    rw [check_health_success_step hc t hd]
    exact ⟨rfl, fun hmax => by simp [HealthChecker.should_restart, hmax]⟩

/-- Witness for C6: from the fresh checker, three process-down checks at
times 10, 20, 30 make `should_restart` true; a 200 check resets the counter
to 0 and `should_restart` is false. -/
theorem should_restart_spec_witness :
    (runChecks HealthChecker.init
        [(10, false, ProbeResult.resp 200), (20, false, ProbeResult.resp 200),
         (30, false, ProbeResult.resp 200)]).should_restart = true ∧
    ((HealthChecker.init.check_health 10 true (ProbeResult.resp 200)).2.1.consecutive_failures
      = 0) := by
  constructor
  · exact should_restart_spec.2.1 HealthChecker.init 10 20 30 false false false
      (ProbeResult.resp 200) (ProbeResult.resp 200) (ProbeResult.resp 200)
      rfl (by decide) (by decide) (by decide) rfl rfl rfl
  · exact (should_restart_spec.2.2 HealthChecker.init 10 (by decide)).1

/-! ## Theorems: job pipeline claims -/

/-- Claim C8 (confirmed): a request whose `workflow` payload is missing or
empty makes `process_workflow` return the immediate error
`"No workflow provided"` with zero engine requests issued — no submission,
queue, history, or artifact fetch. -/
theorem process_workflow_empty_payload (req : JobRequest) (m : ComfyUIManager)
    (env : WorkflowEnv) (fuel : Nat) (h : workflowFalsy req.workflow = true) :
    process_workflow req m env fuel =
      some (⟨"error", "No workflow provided", none⟩, 0) := by
  unfold process_workflow
  rw [h]
  rfl

/-- A throwaway engine environment for concrete evaluations. -/
def idleEnv : WorkflowEnv :=
  { root := HttpRes.http 200
  , upload := fun _ => UploadStep.decodeFail
  , submit := SubmitRes.exc "unused"
  , tstart := 0
  , poll :=
    { t := fun _ => 0
    , hist := fun _ => HistRes.exc "unused"
    , view := fun _ _ => ViewRes.exc "unused" } }

/-- Witness for C8 on a request with a missing workflow key (and on one with
an empty workflow mapping). -/
theorem process_workflow_empty_payload_witness :
    process_workflow ⟨none, 0⟩ ComfyUIManager.init idleEnv 5 =
      some (⟨"error", "No workflow provided", none⟩, 0) ∧
    process_workflow ⟨some [], 2⟩ ComfyUIManager.init idleEnv 5 =
      some (⟨"error", "No workflow provided", none⟩, 0) := by
  constructor
  · exact process_workflow_empty_payload ⟨none, 0⟩ ComfyUIManager.init idleEnv 5 rfl
  · exact process_workflow_empty_payload ⟨some [], 2⟩ ComfyUIManager.init idleEnv 5 rfl

/-- A history observation that carries no terminal marker: a raised
exception, a non-200 response, a 200 body without the prompt id, or a record
whose `status.status_str` is neither `"success"` nor `"error"`.  On such an
observation the poll-loop body does not return. -/
def nonTerminalHist : HistRes → Bool
  | HistRes.exc _ => true
  | HistRes.http code record =>
    code != 200 ||
      (match record with
       | none => true
       | some ph =>
         ph.status.status_str != some "success" && ph.status.status_str != some "error")

/-- If no poll iteration ever observes a terminal marker, the loop runs
until its wall-clock deadline and returns the timed-out result. -/
theorem pollLoop_no_terminal_times_out (p : PollEnv) (tstart : Int)
    (hnt : ∀ j, nonTerminalHist (p.hist j) = true) :
    ∀ (fuel i acc : Nat), (∃ k, k < fuel ∧ p.t (i + k) - tstart ≥ 1200) →
      ∃ n, pollLoop p tstart i acc fuel =
        some (⟨"error", "Workflow timed out after 20 minutes", none⟩, n) := by
  intro fuel
  induction fuel with
  | zero =>
    rintro i acc ⟨k, hk, -⟩
    exact absurd hk (Nat.not_lt_zero k)
  | succ f ih =>
    rintro i acc ⟨k, hk, hdl⟩
    by_cases ht : p.t i - tstart < 1200
    · have hk0 : k ≠ 0 := by
        rintro rfl
        rw [Nat.add_zero] at hdl
        omega
      obtain ⟨k1, rfl⟩ := Nat.exists_eq_succ_of_ne_zero hk0
      have hrec : ∃ k, k < f ∧ p.t (i + 1 + k) - tstart ≥ 1200 := by
        refine ⟨k1, by omega, ?_⟩
        have : i + 1 + k1 = i + (k1 + 1) := by omega
        rw [this]
        exact hdl
      have hj := hnt i
      rcases hhist : p.hist i with msg | ⟨code, record⟩
      · simp only [pollLoop, hhist, ht, if_true, ite_true]
        exact ih (i + 1) (acc + 1) hrec
      · rw [hhist] at hj
        by_cases hcode : code = 200
        · subst hcode
          cases record with
          | none =>
            simp only [pollLoop, hhist, ht, if_true, ite_true]
            exact ih (i + 1) (acc + 1) hrec
          | some ph =>
            simp only [nonTerminalHist, bne_self_eq_false, Bool.false_or,
              Bool.and_eq_true, bne_iff_ne, ne_eq] at hj
            simp only [pollLoop, hhist, ht, if_true, ite_true, hj.1, hj.2,
              if_false, ite_false]
            exact ih (i + 1) (acc + 1) hrec
        · simp only [pollLoop, hhist, ht, if_true, ite_true, hcode, if_false, ite_false]
          exact ih (i + 1) (acc + 1) hrec
    · refine ⟨acc, ?_⟩
      simp only [pollLoop]
      rw [if_neg ht]

/-- Claim C1 counterexample environment: the engine is up, submission
succeeds with prompt id `"p1"`, every history poll finds no record for it,
and the clock reads 0, 600, 1200 at the three loop-condition checks. -/
def timeoutEnv : WorkflowEnv :=
  { root := HttpRes.http 200
  , upload := fun _ => UploadStep.posted (HttpRes.http 200)
  , submit := SubmitRes.http 200 "" (some "p1")
  , tstart := 0
  , poll :=
    { t := fun i => 600 * i
    , hist := fun _ => HistRes.http 200 none
    , view := fun _ _ => ViewRes.exc "unused" } }

/-- Claim C1 counterexample: on a job whose poll loop reaches the 1200 s
deadline without ever observing a terminal marker,
`process_comfyui_workflow` returns status `"error"` (message
`"Workflow timed out after 20 minutes"`), not a distinct `"timeout"`
status. -/
theorem poll_timeout_status_counterexample :
    (process_comfyui_workflow 0 timeoutEnv 3).map (fun r => r.1) =
      some ⟨"error", "Workflow timed out after 20 minutes", none⟩ ∧
    (process_comfyui_workflow 0 timeoutEnv 3).map (fun r => r.1.status) ≠
      some "timeout" := by
  constructor
  · rfl
  · decide

/-- Claim C1 (amended): a job whose poll loop reaches the wall-clock
deadline (1200 s) without ever observing a terminal marker terminates with
the error result whose message is `"Workflow timed out after 20 minutes"`
(so the terminal status field is `"error"`, not a distinct `"timeout"`
status), and the poll loop does not continue past the deadline: once the
clock reads the deadline, the loop returns at once, issuing no further
engine request. -/
theorem poll_deadline_times_out (env : WorkflowEnv) (images fuel : Nat)
    (text pid : String)
    (hroot : env.root = HttpRes.http 200)
    (hsub : env.submit = SubmitRes.http 200 text (some pid))
    (hnt : ∀ j, nonTerminalHist (env.poll.hist j) = true)
    (hdl : ∃ k, k < fuel ∧ env.poll.t k - env.tstart ≥ 1200) :
    (∃ n, process_comfyui_workflow images env fuel =
       some (⟨"error", "Workflow timed out after 20 minutes", none⟩, n)) ∧
    (∀ (i acc f : Nat), env.poll.t i - env.tstart ≥ 1200 →
       pollLoop env.poll env.tstart i acc (f + 1) =
         some (⟨"error", "Workflow timed out after 20 minutes", none⟩, acc)) := by
  constructor
  · have hdl0 : ∃ k, k < fuel ∧ env.poll.t (0 + k) - env.tstart ≥ 1200 := by
      simpa using hdl
    obtain ⟨n, hn⟩ :=
      pollLoop_no_terminal_times_out env.poll env.tstart hnt fuel 0 0 hdl0
    refine ⟨1 + uploadCalls env.upload images + 1 + n, ?_⟩
    unfold process_comfyui_workflow
    rw [hroot, hsub]
    simp [hn]
  · intro i acc f hi
    simp only [pollLoop]
    rw [if_neg (by omega)]

/-- Witness for C1 (amended) on the concrete counterexample environment. -/
theorem poll_deadline_times_out_witness :
    (∃ n, process_comfyui_workflow 0 timeoutEnv 3 =
       some (⟨"error", "Workflow timed out after 20 minutes", none⟩, n)) ∧
    pollLoop timeoutEnv.poll timeoutEnv.tstart 2 2 1 =
      some (⟨"error", "Workflow timed out after 20 minutes", none⟩, 2) := by
  constructor
  · exact (poll_deadline_times_out timeoutEnv 0 3 "" "p1" rfl rfl (fun j => rfl)
      ⟨2, by omega, by decide⟩).1
  · exact (poll_deadline_times_out timeoutEnv 0 3 "" "p1" rfl rfl (fun j => rfl)
      ⟨2, by omega, by decide⟩).2 2 2 0 (by decide)

/-- Total number of image artifacts listed in a history record's output
nodes. -/
def historyImageCount (ph : PromptHistory) : Nat :=
  (ph.outputs.map (fun p =>
    match p.2.images with
    | some l => l.length
    | none => 0)).sum

/-- Claim C2 counterexample history: a success record listing two image
artifacts. -/
def twoImageHistory : PromptHistory :=
  { status := ⟨some "success", []⟩
  , outputs := [("9", ⟨some [⟨"a.png", "", "output"⟩, ⟨"b.png", "", "output"⟩]⟩)] }

/-- Claim C2 counterexample environment: the success record is found on the
first poll; fetching `a.png` returns 200 with bytes `[1, 2, 3]`, fetching
`b.png` returns 404. -/
def partialFetchEnv : WorkflowEnv :=
  { root := HttpRes.http 200
  , upload := fun _ => UploadStep.posted (HttpRes.http 200)
  , submit := SubmitRes.http 200 "" (some "p1")
  , tstart := 0
  , poll :=
    { t := fun _ => 0
    , hist := fun _ => HistRes.http 200 (some twoImageHistory)
    , view := fun _ img =>
        if img.filename = "a.png" then ViewRes.http 200 [1, 2, 3]
        else ViewRes.http 404 [] } }

/-- Claim C2 counterexample: the history lists two artifacts, the `/view`
fetch of `b.png` fails with a 404, yet `process_comfyui_workflow` returns
status `"success"` carrying only the one fetched artifact — a strict subset
— instead of aborting with `error`. -/
theorem partial_artifacts_returned_as_success :
    (process_comfyui_workflow 0 partialFetchEnv 1).map (fun r => r.1) =
      some ⟨"success", "Generated 1 image(s)",
            some [⟨"a.png", "base64", "data:image/png;base64,AQID"⟩]⟩ ∧
    historyImageCount twoImageHistory = 2 := by
  constructor
  · rfl
  · rfl

/-- Claim C2 (amended): only `rp_handler.handler` has the claimed behaviour:
there a failed artifact fetch (`get_image` raising, which includes every
non-2xx `/view` response via `raise_for_status`) aborts the whole job with
the error `"Failed to fetch image: ..."` naming the failure, and a
`completed` result is never produced from a partially fetched iteration.
In `app/handler.py`'s `process_comfyui_workflow`, by contrast, a non-200
`/view` response silently drops that artifact and the job still returns
`success` with the remaining ones (see the counterexample). -/
theorem rp_fetch_failure_aborts (w : List String) (env : Rp.Env) (pid : String)
    (outs : List (String × NodeOutput)) (msg : String)
    (hw : w ≠ [])
    (hq : env.queue = Except.ok (some pid))
    (hh : env.hist 0 = Rp.HistObs.present (some outs))
    (hc : Rp.collect (env.view 0) 0 outs = Except.error msg) :
    Rp.handler (Rp.JobInput.mapping (some w)) env =
      Rp.Result.error ("Failed to fetch image: " ++ msg) := by
  have hwe : w.isEmpty = false := by
    cases w with
    | nil => exact absurd rfl hw
    | cons a l => rfl
  simp only [Rp.handler, Rp.validate_input, hwe, Bool.false_eq_true, if_false,
    ite_false, hq]
  show Rp.poll env 0 (59 + 1) = _
  simp only [Rp.poll, hh, hc]

/-- Witness environment for the C2 amended theorem: one artifact whose fetch
raises. -/
def rpFailEnv : Rp.Env :=
  { queue := Except.ok (some "p1")
  , hist := fun _ => Rp.HistObs.present (some [("9", ⟨some [⟨"x.png", "", "output"⟩]⟩)])
  , view := fun _ _ => Rp.FetchRes.exc "boom" }

/-- Witness for the C2 amended theorem. -/
theorem rp_fetch_failure_aborts_witness :
    Rp.handler (Rp.JobInput.mapping (some ["1"])) rpFailEnv =
      Rp.Result.error ("Failed to fetch image: " ++ "boom") :=
  rp_fetch_failure_aborts ["1"] rpFailEnv "p1"
    [("9", ⟨some [⟨"x.png", "", "output"⟩]⟩)] "boom"
    (by decide) rfl rfl rfl
